import Mathlib

/-!
Shallow embedding of the osu-ahr coordination plugins:
`MatchAborter` (src/plugins/MatchAborter.ts) and `MapRecaster`.

Lobby-side data the handlers read (`isMatching`, `players`, `playersInGame`,
`playersFinished`, `host`, `mapId`) is passed in as an explicit snapshot.
The Node.js timer subsystem (`setTimeout` / `clearTimeout`) is modelled as a
set of live (scheduled, not-yet-cleared) timer handles: a callback can run
only while its handle is still live, and `clearTimeout` removes the handle,
which matches the single-threaded event-loop semantics where a cleared
timeout's callback is never invoked.
-/

abbrev PlayerId := Nat

/-- Configuration block of the `MatchAborter` plugin (MatchAborterOption). -/
structure MatchAborterOption where
  vote_rate : ℚ
  vote_min : ℕ
  auto_abort_rate : ℚ
  auto_abort_delay_ms : ℕ
deriving DecidableEq

/-- Snapshot of the lobby state the plugin queries (`this.lobby`). -/
structure LobbySnapshot where
  isMatching : Bool
  players : List PlayerId
  playersInGame : List PlayerId
  playersFinished : List PlayerId
  host : Option PlayerId
deriving DecidableEq

/-- Modelled from the spec: the `VoteCounter` class is referenced by
MatchAborter.ts but its source file is not in the repository snapshot.
Per the spec's QuorumVoter (§4.2): a roster of eligible voters, a set of
cast votes (subset of the roster), and the policy `rate` / `minimum`. -/
structure VoteCounter where
  vote_rate : ℚ
  vote_min : ℕ
  voters : List PlayerId
  votes : List PlayerId
deriving DecidableEq

namespace VoteCounter

/-- Modelled from the spec: current number of cast votes. -/
def count (v : VoteCounter) : ℕ := v.votes.length

/-- Modelled from the spec: threshold = ceil(max(roster size × rate, minimum)). -/
def threshold (v : VoteCounter) : ℤ :=
  Int.ceil (max ((v.voters.length : ℚ) * v.vote_rate) ((v.vote_min : ℚ)))

/-- Modelled from the spec: passed iff the vote count is positive and
reaches the threshold. -/
def passed (v : VoteCounter) : Bool :=
  decide (0 < v.count ∧ v.threshold ≤ (v.count : ℤ))

/-- Modelled from the spec: add a participant to the roster (no duplicate). -/
def AddVoter (v : VoteCounter) (p : PlayerId) : VoteCounter :=
  if p ∈ v.voters then v else { v with voters := v.voters ++ [p] }

/-- Modelled from the spec: remove a participant from the roster and remove
any previously cast vote from that participant; no-op if absent. -/
def RemoveVoter (v : VoteCounter) (p : PlayerId) : VoteCounter :=
  { v with voters := v.voters.filter (fun q => q != p),
           votes := v.votes.filter (fun q => q != p) }

/-- Modelled from the spec: empty the roster (removing every vote with it). -/
def RemoveAllVoters (v : VoteCounter) : VoteCounter :=
  { v with voters := [], votes := [] }

/-- Modelled from the spec: empty the vote set, keeping the roster. -/
def Clear (v : VoteCounter) : VoteCounter :=
  { v with votes := [] }

/-- Modelled from the spec: cast a vote; accepted iff the participant is in
the roster and has not voted yet. Returns the new state and acceptance. -/
def Vote (v : VoteCounter) (p : PlayerId) : VoteCounter × Bool :=
  if p ∈ v.voters ∧ p ∉ v.votes then
    ({ v with votes := v.votes ++ [p] }, true)
  else (v, false)

end VoteCounter

/-- Mutable state of a `MatchAborter` instance, together with an observation
log: `abortCalls` counts `lobby.AbortMatch()` invocations, `msgCount` the
progress messages sent, `firedTimers` the timer handles whose scheduled
callback actually executed the abort body. `liveTimers` is the set of
scheduled, not-yet-cleared timeouts (handle, delayMs); `nextId` supplies
fresh handles. -/
structure AborterState where
  abortTimer : Option ℕ
  liveTimers : List (ℕ × ℕ)
  nextId : ℕ
  voting : VoteCounter
  abortCalls : ℕ
  msgCount : ℕ
  firedTimers : List ℕ
deriving DecidableEq

/-- Handles of the scheduled, not-yet-cleared timeouts. -/
def liveIds (s : AborterState) : List ℕ := s.liveTimers.map Prod.fst

/-- `stopTimer`: if a timer is held, `clearTimeout` it and null the handle. -/
def stopTimer (s : AborterState) : AborterState :=
  match s.abortTimer with
  | none => s
  | some i =>
    { s with abortTimer := none,
             liveTimers := s.liveTimers.filter (fun t => t.1 != i) }

/-- `startTimer`: no-op when `auto_abort_delay_ms` is 0; otherwise stop any
current timer and schedule a fresh timeout for `auto_abort_delay_ms`. -/
def startTimer (opt : MatchAborterOption) (s : AborterState) : AborterState :=
  if opt.auto_abort_delay_ms = 0 then s
  else
    let s1 := stopTimer s
    { s1 with abortTimer := some s1.nextId,
              liveTimers := s1.liveTimers ++ [(s1.nextId, opt.auto_abort_delay_ms)],
              nextId := s1.nextId + 1 }

/-- `doAbort`: stop the timer and call `lobby.AbortMatch()`. -/
def doAbort (s : AborterState) : AborterState :=
  let s1 := stopTimer s
  { s1 with abortCalls := s1.abortCalls + 1 }

/-- `voteRequired` getter: `Math.ceil(Math.max(playersInGame.size * vote_rate, vote_min))`. -/
def voteRequired (opt : MatchAborterOption) (lobby : LobbySnapshot) : ℤ :=
  Int.ceil (max ((lobby.playersInGame.length : ℚ) * opt.vote_rate)
               ((opt.vote_min : ℚ)))

/-- `autoAbortRequired` getter: `Math.ceil(playersInGame.size * auto_abort_rate)`. -/
def autoAbortRequired (opt : MatchAborterOption) (lobby : LobbySnapshot) : ℤ :=
  Int.ceil ((lobby.playersInGame.length : ℚ) * opt.auto_abort_rate)

/-- `checkAutoAbort`: when no timer is held and enough players finished,
start the timer. -/
def checkAutoAbort (opt : MatchAborterOption) (lobby : LobbySnapshot)
    (s : AborterState) : AborterState :=
  if s.abortTimer = none then
    if autoAbortRequired opt lobby ≤ (lobby.playersFinished.length : ℤ) then
      startTimer opt s
    else s
  else s

/-- `checkVoteCount`: optionally report progress, then abort if the vote
passed. -/
def checkVoteCount (showMessage : Bool) (s : AborterState) : AborterState :=
  let s1 := if s.voting.count ≠ 0 ∧ showMessage = true then
              { s with msgCount := s.msgCount + 1 }
            else s
  if s1.voting.passed then doAbort s1 else s1

/-- `vote`: ignore once passed; otherwise cast the vote and, if accepted,
re-check the count with a progress message. -/
def vote (p : PlayerId) (s : AborterState) : AborterState :=
  if s.voting.passed then s
  else
    let r := s.voting.Vote p
    if r.2 then checkVoteCount true { s with voting := r.1 } else s

/-- `onPlayerLeft`: during a match, drop the leaver's vote, re-evaluate the
vote count and the auto-abort timer, and if the lobby emptied clear votes
and stop the timer. -/
def onPlayerLeft (opt : MatchAborterOption) (lobby : LobbySnapshot)
    (p : PlayerId) (s : AborterState) : AborterState :=
  if lobby.isMatching = false then s
  else
    let s1 := { s with voting := s.voting.RemoveVoter p }
    let s2 := checkVoteCount false s1
    let s3 := checkAutoAbort opt lobby s2
    if lobby.players.length = 0 then
      stopTimer { s3 with voting := s3.voting.Clear }
    else s3

/-- `onMatchStarted`: reset the voter roster to the current players. -/
def onMatchStarted (lobby : LobbySnapshot) (s : AborterState) : AborterState :=
  { s with voting := lobby.players.foldl (fun v q => v.AddVoter q)
                        s.voting.RemoveAllVoters }

/-- `onPlayerFinished`: a progress signal; only re-checks the auto-abort. -/
def onPlayerFinished (opt : MatchAborterOption) (lobby : LobbySnapshot)
    (s : AborterState) : AborterState :=
  checkAutoAbort opt lobby s

/-- `onMatchFinished`: stop the timer. -/
def onMatchFinished (s : AborterState) : AborterState :=
  stopTimer s

/-- `onCustomCommand`: during a match, `!abort` from the host aborts at once,
from anyone else it is a vote; `*abort` aborts when authority ≥ 2. -/
def onCustomCommand (opt : MatchAborterOption) (lobby : LobbySnapshot)
    (p : PlayerId) (auth : ℕ) (command : String) (pparam : String)
    (s : AborterState) : AborterState :=
  if lobby.isMatching = false then s
  else if command = "!abort" then
    if lobby.host = some p then doAbort s else vote p s
  else if 2 ≤ auth then
    if command = "*abort" then doAbort s else s
  else s

/-- The scheduled timeout callback for handle `i`, under event-loop
semantics: it runs only if handle `i` is still live (not cleared); the body
checks `abortTimer != null` and then runs `doAbort`. Handles that executed
the abort body are logged in `firedTimers`. -/
def fireTimer (i : ℕ) (s : AborterState) : AborterState :=
  if i ∈ liveIds s then
    let s1 := { s with liveTimers := s.liveTimers.filter (fun t => t.1 != i) }
    if s1.abortTimer ≠ none then
      let s2 := doAbort s1
      { s2 with firedTimers := s2.firedTimers ++ [i] }
    else s1
  else s

/-- Everything that can happen to a `MatchAborter` instance: the lobby
events it subscribed to, plus the expiry of a scheduled timeout. -/
inductive AborterEvent where
  | playerLeft (lobby : LobbySnapshot) (p : PlayerId)
  | matchStarted (lobby : LobbySnapshot)
  | playerFinished (lobby : LobbySnapshot)
  | matchFinished
  | customCommand (lobby : LobbySnapshot) (p : PlayerId) (auth : ℕ)
      (command : String) (pparam : String)
  | timerFire (i : ℕ)
deriving DecidableEq

/-- One event step of the plugin. -/
def aborterStep (opt : MatchAborterOption) (s : AborterState)
    (e : AborterEvent) : AborterState :=
  match e with
  | .playerLeft lobby p => onPlayerLeft opt lobby p s
  | .matchStarted lobby => onMatchStarted lobby s
  | .playerFinished lobby => onPlayerFinished opt lobby s
  | .matchFinished => onMatchFinished s
  | .customCommand lobby p auth command pparam =>
      onCustomCommand opt lobby p auth command pparam s
  | .timerFire i => fireTimer i s

/-- Run a list of events from a state. -/
def aborterRun (opt : MatchAborterOption) (s : AborterState)
    (es : List AborterEvent) : AborterState :=
  es.foldl (aborterStep opt) s

/-- Construction state of the plugin: no timer, empty vote counter. -/
def initAborter (opt : MatchAborterOption) : AborterState :=
  { abortTimer := none, liveTimers := [], nextId := 0,
    voting := { vote_rate := opt.vote_rate, vote_min := opt.vote_min,
                voters := [], votes := [] },
    abortCalls := 0, msgCount := 0, firedTimers := [] }

/-- State of a `MapRecaster` instance: the one-shot flag and the log of
messages sent through `lobby.SendMessage`. -/
structure RecasterState where
  canRecast : Bool
  sent : List String
deriving DecidableEq

/-- The Bancho response kinds the recaster distinguishes. -/
inductive BanchoResponseKind where
  | BeatmapChanged
  | Other
deriving DecidableEq

namespace MapRecaster

/-- `onReceivedChatCommand`: on `!update`, if recasting is still allowed,
spend the flag and send `!mp map <mapId>`. -/
def onReceivedChatCommand (mapId : ℕ) (command pparam : String)
    (player : PlayerId) (s : RecasterState) : RecasterState :=
  if command = "!update" then
    if s.canRecast then
      { canRecast := false,
        sent := s.sent ++ ["!mp map " ++ toString mapId] }
    else s
  else s

/-- The `ReceivedBanchoResponse` subscription: a `BeatmapChanged` response
re-allows recasting. -/
def onReceivedBanchoResponse (k : BanchoResponseKind) (s : RecasterState) :
    RecasterState :=
  match k with
  | .BeatmapChanged => { s with canRecast := true }
  | .Other => s

end MapRecaster

/-! ### Concrete sample data used by witnesses and counterexamples -/

/-- Sample policy: vote rate 1/2, minimum 2, auto-abort rate 1/2, delay 5ms. -/
def sampleOpt : MatchAborterOption :=
  { vote_rate := 1/2, vote_min := 2, auto_abort_rate := 1/2, auto_abort_delay_ms := 5 }

/-- The same policy with the auto-abort delay set to 0 (feature disabled). -/
def zeroDelayOpt : MatchAborterOption :=
  { vote_rate := 1/2, vote_min := 2, auto_abort_rate := 1/2, auto_abort_delay_ms := 0 }

/-- A mid-match lobby with four players, two of whom already finished. -/
def sampleLobby : LobbySnapshot :=
  { isMatching := true, players := [1, 2, 3, 4], playersInGame := [1, 2, 3, 4],
    playersFinished := [3, 4], host := some 1 }

/-- A mid-match lobby of players 5..8 whose host is player 9. -/
def hostLobby : LobbySnapshot :=
  { isMatching := true, players := [5, 6, 7, 8], playersInGame := [5, 6, 7, 8],
    playersFinished := [], host := some 9 }

/-- The abort chat command text. -/
def cmdAbort : String := "!abort"

/-- The recast chat command text. -/
def cmdUpdate : String := "!update"

/-- An unrelated chat command text. -/
def cmdOther : String := "!skip"

/-- An empty command parameter. -/
def noParam : String := ""

/-- A state with the watchdog armed (handle 0) and one cast vote by player 5. -/
def midVoteState : AborterState :=
  { abortTimer := some 0, liveTimers := [(0, 5)], nextId := 1,
    voting := { vote_rate := 1/2, vote_min := 2, voters := [5, 6, 7, 8], votes := [5] },
    abortCalls := 0, msgCount := 0, firedTimers := [] }

/-! ### Helper lemmas on the primitive operations -/

theorem voting_stopTimer (s : AborterState) : (stopTimer s).voting = s.voting := by
  unfold stopTimer
  cases s.abortTimer <;> rfl

theorem voting_startTimer (opt : MatchAborterOption) (s : AborterState) :
    (startTimer opt s).voting = s.voting := by
  unfold startTimer
  split
  · rfl
  · exact voting_stopTimer s

theorem voting_doAbort (s : AborterState) : (doAbort s).voting = s.voting :=
  voting_stopTimer s

theorem voting_checkAutoAbort (opt : MatchAborterOption) (lobby : LobbySnapshot)
    (s : AborterState) : (checkAutoAbort opt lobby s).voting = s.voting := by
  unfold checkAutoAbort
  split
  · split
    · exact voting_startTimer opt s
    · rfl
  · rfl

theorem checkVoteCount_voting (b : Bool) (s : AborterState) :
    (checkVoteCount b s).voting = s.voting := by
  unfold checkVoteCount
  split <;> (dsimp only; split)
  · rw [voting_doAbort]
  · rfl
  · rw [voting_doAbort]
  · rfl

theorem abortTimer_stopTimer (s : AborterState) : (stopTimer s).abortTimer = none := by
  unfold stopTimer
  cases h : s.abortTimer
  · exact h
  · rfl

theorem abortCalls_stopTimer (s : AborterState) :
    (stopTimer s).abortCalls = s.abortCalls := by
  unfold stopTimer
  cases s.abortTimer <;> rfl

theorem abortCalls_startTimer (opt : MatchAborterOption) (s : AborterState) :
    (startTimer opt s).abortCalls = s.abortCalls := by
  unfold startTimer
  split
  · rfl
  · exact abortCalls_stopTimer s

theorem abortCalls_doAbort (s : AborterState) :
    (doAbort s).abortCalls = s.abortCalls + 1 := by
  show (stopTimer s).abortCalls + 1 = s.abortCalls + 1
  rw [abortCalls_stopTimer]

theorem abortCalls_checkAutoAbort (opt : MatchAborterOption) (lobby : LobbySnapshot)
    (s : AborterState) : (checkAutoAbort opt lobby s).abortCalls = s.abortCalls := by
  unfold checkAutoAbort
  split
  · split
    · exact abortCalls_startTimer opt s
    · rfl
  · rfl

theorem checkVoteCount_abortCalls (b : Bool) (s : AborterState) :
    (checkVoteCount b s).abortCalls
      = if s.voting.passed then s.abortCalls + 1 else s.abortCalls := by
  unfold checkVoteCount
  dsimp only
  cases hp : s.voting.passed <;> split <;> simp [hp, abortCalls_doAbort]

theorem checkVoteCount_not_passed (s : AborterState)
    (h : s.voting.passed = false) : checkVoteCount false s = s := by
  unfold checkVoteCount
  simp [h]

theorem nextId_stopTimer (s : AborterState) : (stopTimer s).nextId = s.nextId := by
  unfold stopTimer
  cases s.abortTimer <;> rfl

/-- A lobby with nobody present (match nominally running). -/
def emptyLobby : LobbySnapshot :=
  { isMatching := true, players := [], playersInGame := [],
    playersFinished := [], host := none }

theorem votes_foldl_AddVoter (l : List PlayerId) (v : VoteCounter) :
    (l.foldl (fun a q => a.AddVoter q) v).votes = v.votes := by
  induction l generalizing v with
  | nil => rfl
  | cons q t ih =>
    rw [List.foldl_cons, ih]
    unfold VoteCounter.AddVoter
    split <;> rfl

/-! ### Claim theorems -/

/-- C3: the vote threshold is `ceil(max(R × rate, minimum))` for every
roster size R and policy; it is never negative, and when nobody is in game
it equals the configured minimum. -/
theorem C3_vote_threshold (opt : MatchAborterOption) (lobby : LobbySnapshot) :
    voteRequired opt lobby
      = Int.ceil (max ((lobby.playersInGame.length : ℚ) * opt.vote_rate)
                     ((opt.vote_min : ℚ)))
    ∧ 0 ≤ voteRequired opt lobby
    ∧ (lobby.playersInGame = [] → voteRequired opt lobby = opt.vote_min) := by
  refine ⟨rfl, ?_, ?_⟩
  · exact Int.ceil_nonneg (le_trans (Nat.cast_nonneg _) (le_max_right _ _))
  · intro h
    rw [voteRequired, h]
    simp only [List.length_nil, Nat.cast_zero, zero_mul]
    rw [max_eq_right (Nat.cast_nonneg _), Int.ceil_natCast]

/-- Witness for C3 at the sample policy and a lobby with nobody in game. -/
theorem C3_vote_threshold_witness :
    emptyLobby.playersInGame = []
    ∧ voteRequired sampleOpt emptyLobby = sampleOpt.vote_min :=
  ⟨rfl, (C3_vote_threshold sampleOpt emptyLobby).2.2 rfl⟩

/-- C1 counterexample: the host's privileged abort command mid-vote triggers
the action (abort callback invoked once, watchdog disarmed) but does NOT
clear the VoteSet: player 5's vote is still present afterwards, refuting
"after any trigger the VoteSet is empty". -/
theorem C1_counterexample :
    (onCustomCommand sampleOpt hostLobby 9 0 cmdAbort noParam midVoteState).abortCalls
        = midVoteState.abortCalls + 1
    ∧ (onCustomCommand sampleOpt hostLobby 9 0 cmdAbort noParam midVoteState).voting.votes
        = [5]
    ∧ (onCustomCommand sampleOpt hostLobby 9 0 cmdAbort noParam midVoteState).voting.votes
        ≠ [] := by
  exact ⟨rfl, rfl, by decide⟩

/-- C1 (amended): triggering the abort action disarms the watchdog and
invokes the host's abort callback exactly once, but leaves the VoteSet
untouched (it is cleared only at the next match start); the host's
privileged command routes directly to this trigger. -/
theorem C1_abort_trigger (opt : MatchAborterOption) (lobby : LobbySnapshot)
    (p : PlayerId) (auth : ℕ) (pr : String) (s : AborterState) :
    (doAbort s).abortTimer = none
    ∧ (doAbort s).abortCalls = s.abortCalls + 1
    ∧ (doAbort s).voting = s.voting
    ∧ (lobby.isMatching = true → lobby.host = some p →
        onCustomCommand opt lobby p auth cmdAbort pr s = doAbort s) := by
  refine ⟨abortTimer_stopTimer s, abortCalls_doAbort s, voting_doAbort s, ?_⟩
  intro hm hh
  unfold onCustomCommand
  rw [hm, hh]
  simp [cmdAbort]

/-- Witness for C1 at the sample host lobby and mid-vote state. -/
theorem C1_abort_trigger_witness :
    hostLobby.isMatching = true ∧ hostLobby.host = some 9
    ∧ onCustomCommand sampleOpt hostLobby 9 0 cmdAbort noParam midVoteState
        = doAbort midVoteState :=
  ⟨rfl, rfl,
    (C1_abort_trigger sampleOpt hostLobby 9 0 noParam midVoteState).2.2.2 rfl rfl⟩

/-- C7 counterexample: handling match-finished stops the timer but does not
clear the VoteSet: player 5's vote is still present, refuting "the VoteSet
is empty immediately after match-finished is handled". -/
theorem C7_counterexample :
    (onMatchFinished midVoteState).voting.votes = [5]
    ∧ (onMatchFinished midVoteState).voting.votes ≠ []
    ∧ (onMatchFinished midVoteState).abortTimer = none :=
  ⟨rfl, by decide, rfl⟩

/-- C7 (amended): on match-finished the coordinator disarms the watchdog and
performs no abort; the VoteSet is left unchanged — it is cleared only by the
next match-start handler, which resets the roster and empties the votes. -/
theorem C7_match_finished (s : AborterState) (lobby : LobbySnapshot) :
    (onMatchFinished s).abortTimer = none
    ∧ (onMatchFinished s).voting = s.voting
    ∧ (onMatchFinished s).abortCalls = s.abortCalls
    ∧ (onMatchStarted lobby s).voting.votes = [] := by
  refine ⟨abortTimer_stopTimer s, voting_stopTimer s, abortCalls_stopTimer s, ?_⟩
  show (lobby.players.foldl (fun v q => v.AddVoter q)
          s.voting.RemoveAllVoters).votes = []
  rw [votes_foldl_AddVoter]
  rfl

/-- C9: the recast handler's result does not depend on the issuing player:
any two players issuing the same command from the same state produce the
same state and messages (the handler never inspects the player argument,
and an authority level is not even part of its signature). -/
theorem C9_recast_player_independent (mapId : ℕ) (command pr : String)
    (p1 p2 : PlayerId) (s : RecasterState) :
    MapRecaster.onReceivedChatCommand mapId command pr p1 s
      = MapRecaster.onReceivedChatCommand mapId command pr p2 s := rfl

/-- C10: while the timer handle is non-null, a progress signal leaves the
whole state — handle, scheduled timer and its delay — unchanged:
`checkAutoAbort` never rearms, replaces or extends an armed watchdog. -/
theorem C10_armed_never_rearmed (opt : MatchAborterOption) (lobby : LobbySnapshot)
    (s : AborterState) (j : ℕ) (hj : s.abortTimer = some j) :
    checkAutoAbort opt lobby s = s ∧ onPlayerFinished opt lobby s = s := by
  have h1 : checkAutoAbort opt lobby s = s := by
    unfold checkAutoAbort
    rw [hj]
    simp
  exact ⟨h1, h1⟩

/-- Witness for C10 at the armed mid-vote state. -/
theorem C10_armed_never_rearmed_witness :
    midVoteState.abortTimer = some 0
    ∧ checkAutoAbort sampleOpt sampleLobby midVoteState = midVoteState
    ∧ onPlayerFinished sampleOpt sampleLobby midVoteState = midVoteState :=
  ⟨rfl, (C10_armed_never_rearmed sampleOpt sampleLobby midVoteState 0 rfl).1,
    (C10_armed_never_rearmed sampleOpt sampleLobby midVoteState 0 rfl).2⟩

/-- C4 counterexample: with delay 0 and the auto-abort condition met from
the idle state, the progress handler neither fires the action nor arms the
watchdog — the state is returned unchanged and the abort-callback count
stays 0, refuting "the abort action is fired immediately". -/
theorem C4_counterexample :
    zeroDelayOpt.auto_abort_delay_ms = 0
    ∧ autoAbortRequired zeroDelayOpt sampleLobby
        ≤ (sampleLobby.playersFinished.length : ℤ)
    ∧ (initAborter zeroDelayOpt).abortTimer = none
    ∧ onPlayerFinished zeroDelayOpt sampleLobby (initAborter zeroDelayOpt)
        = initAborter zeroDelayOpt
    ∧ (onPlayerFinished zeroDelayOpt sampleLobby (initAborter zeroDelayOpt)).abortCalls
        = 0 := by
  have hreq : autoAbortRequired zeroDelayOpt sampleLobby = 2 := by
    rw [autoAbortRequired]
    norm_num [sampleLobby, zeroDelayOpt, Int.ceil_eq_iff]
  have hnoop : onPlayerFinished zeroDelayOpt sampleLobby (initAborter zeroDelayOpt)
      = initAborter zeroDelayOpt := by
    unfold onPlayerFinished checkAutoAbort
    split
    · split
      · unfold startTimer
        exact if_pos rfl
      · rfl
    · rfl
  refine ⟨rfl, ?_, rfl, hnoop, by rw [hnoop]; rfl⟩
  rw [hreq]
  norm_num [sampleLobby]

/-- C4 (amended): when `auto_abort_delay_ms` is 0 the auto-abort feature is
disabled: `startTimer` is a no-op, so a progress signal neither arms the
watchdog nor fires the action. -/
theorem C4_zero_delay_disables (opt : MatchAborterOption) (lobby : LobbySnapshot)
    (s : AborterState) (h : opt.auto_abort_delay_ms = 0) :
    startTimer opt s = s ∧ onPlayerFinished opt lobby s = s := by
  have h1 : startTimer opt s = s := by
    unfold startTimer
    rw [if_pos h]
  refine ⟨h1, ?_⟩
  unfold onPlayerFinished checkAutoAbort
  split
  · split
    · exact h1
    · rfl
  · rfl

/-- Witness for C4 at the zero-delay policy. -/
theorem C4_zero_delay_disables_witness :
    zeroDelayOpt.auto_abort_delay_ms = 0
    ∧ startTimer zeroDelayOpt midVoteState = midVoteState
    ∧ onPlayerFinished zeroDelayOpt sampleLobby midVoteState = midVoteState :=
  ⟨rfl, (C4_zero_delay_disables zeroDelayOpt sampleLobby midVoteState rfl).1,
    (C4_zero_delay_disables zeroDelayOpt sampleLobby midVoteState rfl).2⟩

/-- C5 counterexample: with delay 0, the completion condition met and the
watchdog idle, a progress signal arms nothing — the watchdog stays
disarmed, refuting "the watchdog is armed for auto_abort_delay_ms". -/
theorem C5_counterexample :
    autoAbortRequired zeroDelayOpt sampleLobby
        ≤ (sampleLobby.playersFinished.length : ℤ)
    ∧ (initAborter zeroDelayOpt).abortTimer = none
    ∧ (onPlayerFinished zeroDelayOpt sampleLobby (initAborter zeroDelayOpt)).abortTimer
        = none := by
  have hreq : autoAbortRequired zeroDelayOpt sampleLobby = 2 := by
    rw [autoAbortRequired]
    norm_num [sampleLobby, zeroDelayOpt, Int.ceil_eq_iff]
  have hnoop : onPlayerFinished zeroDelayOpt sampleLobby (initAborter zeroDelayOpt)
      = initAborter zeroDelayOpt := by
    unfold onPlayerFinished checkAutoAbort
    split
    · split
      · unfold startTimer
        exact if_pos rfl
      · rfl
    · rfl
  refine ⟨?_, rfl, by rw [hnoop]; rfl⟩
  rw [hreq]
  norm_num [sampleLobby]

/-- C5 (amended): on a progress signal, if the completion condition is met,
the watchdog is idle and `auto_abort_delay_ms` is nonzero, the watchdog is
armed with a fresh timeout for `auto_abort_delay_ms`; if the condition is
not met, or the watchdog is already armed, the state is unchanged. -/
theorem C5_progress_arming (opt : MatchAborterOption) (lobby : LobbySnapshot)
    (s : AborterState) :
    (opt.auto_abort_delay_ms ≠ 0 → s.abortTimer = none →
      autoAbortRequired opt lobby ≤ (lobby.playersFinished.length : ℤ) →
      (onPlayerFinished opt lobby s).abortTimer = some s.nextId
      ∧ (s.nextId, opt.auto_abort_delay_ms)
          ∈ (onPlayerFinished opt lobby s).liveTimers)
    ∧ (¬ autoAbortRequired opt lobby ≤ (lobby.playersFinished.length : ℤ) →
        onPlayerFinished opt lobby s = s)
    ∧ (s.abortTimer ≠ none → onPlayerFinished opt lobby s = s) := by
  refine ⟨?_, ?_, ?_⟩
  · intro hd h0 hle
    unfold onPlayerFinished checkAutoAbort startTimer stopTimer
    rw [h0]
    simp [hd, hle]
  · intro hn
    unfold onPlayerFinished checkAutoAbort
    by_cases h0 : s.abortTimer = none
    · rw [if_pos h0, if_neg hn]
    · rw [if_neg h0]
  · intro hs
    unfold onPlayerFinished checkAutoAbort
    rw [if_neg hs]

/-- Witness for C5: from the idle initial state with two of four finished,
the sample policy arms timer handle 0 for 5ms. -/
theorem C5_progress_arming_witness :
    (onPlayerFinished sampleOpt sampleLobby (initAborter sampleOpt)).abortTimer
        = some 0
    ∧ (0, 5) ∈ (onPlayerFinished sampleOpt sampleLobby (initAborter sampleOpt)).liveTimers := by
  have h := (C5_progress_arming sampleOpt sampleLobby (initAborter sampleOpt)).1
    (by decide) rfl
    (by rw [autoAbortRequired]; norm_num [sampleOpt, sampleLobby, Int.ceil_eq_iff])
  exact h

/-- C8: the recast action runs at most once per selection window: a
beatmap-changed response arms the flag; `!update` while armed sends the
recast message exactly once and spends the flag; any command while spent is
ignored (no message, no state change) until the next beatmap change. -/
theorem C8_recast_once (mapId : ℕ) (pr : String) (player : PlayerId)
    (s : RecasterState) :
    (MapRecaster.onReceivedBanchoResponse BanchoResponseKind.BeatmapChanged s).canRecast
        = true
    ∧ (s.canRecast = true →
        MapRecaster.onReceivedChatCommand mapId cmdUpdate pr player s
          = { canRecast := false,
              sent := s.sent ++ ["!mp map " ++ toString mapId] })
    ∧ (s.canRecast = false → ∀ command,
        MapRecaster.onReceivedChatCommand mapId command pr player s = s) := by
  refine ⟨rfl, ?_, ?_⟩
  · intro h
    unfold MapRecaster.onReceivedChatCommand
    rw [h]
    simp [cmdUpdate]
  · intro h command
    unfold MapRecaster.onReceivedChatCommand
    rw [h]
    split <;> simp

/-- Witness for C8: armed state sends the recast once; spent state ignores
the same command. -/
theorem C8_recast_once_witness :
    MapRecaster.onReceivedChatCommand 42 cmdUpdate noParam 1
        { canRecast := true, sent := [] }
      = { canRecast := false, sent := ["!mp map " ++ toString 42] }
    ∧ MapRecaster.onReceivedChatCommand 42 cmdUpdate noParam 1
        { canRecast := false, sent := [] }
      = { canRecast := false, sent := [] } := by
  constructor
  · have h := (C8_recast_once 42 noParam 1 { canRecast := true, sent := [] }).2.1 rfl
    simpa using h
  · exact (C8_recast_once 42 noParam 1 { canRecast := false, sent := [] }).2.2 rfl cmdUpdate

theorem not_mem_filter_bne (p : PlayerId) (l : List PlayerId) :
    p ∉ l.filter (fun q => q != p) := by
  intro h
  have hb := List.of_mem_filter h
  simp at hb

/-- C6: on player-left during a match the leaver's vote and roster entry are
removed; the vote-pass condition is re-evaluated (a retroactively satisfied
quorum triggers the abort exactly once) and so is the auto-arm condition (a
retroactively satisfied completion threshold arms the watchdog); if the
lobby emptied, the votes are cleared and the watchdog disarmed. -/
theorem C6_player_left (opt : MatchAborterOption) (lobby : LobbySnapshot)
    (p : PlayerId) (s : AborterState) (hm : lobby.isMatching = true) :
    (p ∉ (onPlayerLeft opt lobby p s).voting.votes
      ∧ p ∉ (onPlayerLeft opt lobby p s).voting.voters)
    ∧ (lobby.players = [] →
        (onPlayerLeft opt lobby p s).voting.votes = []
        ∧ (onPlayerLeft opt lobby p s).abortTimer = none)
    ∧ ((s.voting.RemoveVoter p).passed = true →
        (onPlayerLeft opt lobby p s).abortCalls = s.abortCalls + 1)
    ∧ ((s.voting.RemoveVoter p).passed = false → s.abortTimer = none →
        opt.auto_abort_delay_ms ≠ 0 →
        autoAbortRequired opt lobby ≤ (lobby.playersFinished.length : ℤ) →
        lobby.players ≠ [] →
        (onPlayerLeft opt lobby p s).abortTimer = some s.nextId) := by
  have hcore : onPlayerLeft opt lobby p s
      = if lobby.players.length = 0 then
          stopTimer
            { checkAutoAbort opt lobby
                (checkVoteCount false { s with voting := s.voting.RemoveVoter p }) with
              voting :=
                (checkAutoAbort opt lobby
                  (checkVoteCount false
                    { s with voting := s.voting.RemoveVoter p })).voting.Clear }
        else
          checkAutoAbort opt lobby
            (checkVoteCount false { s with voting := s.voting.RemoveVoter p }) := by
    unfold onPlayerLeft
    rw [hm, if_neg (by decide : ¬(true = false))]
  have hAv : (checkAutoAbort opt lobby
      (checkVoteCount false { s with voting := s.voting.RemoveVoter p })).voting
      = s.voting.RemoveVoter p := by
    rw [voting_checkAutoAbort, checkVoteCount_voting]
  refine ⟨?_, ?_, ?_, ?_⟩
  · rw [hcore]
    split
    · constructor
      · intro h
        rw [voting_stopTimer] at h
        exact absurd (show p ∈ ([] : List PlayerId) from h) (List.not_mem_nil p)
      · intro h
        rw [voting_stopTimer] at h
        have h2 : p ∈ ((s.voting.RemoveVoter p).Clear).voters := by
          rw [← hAv]
          exact h
        exact absurd h2 (not_mem_filter_bne p s.voting.voters)
    · rw [hAv]
      exact ⟨not_mem_filter_bne p s.voting.votes,
        not_mem_filter_bne p s.voting.voters⟩
  · intro hp0
    have hz : lobby.players.length = 0 := by rw [hp0]; rfl
    rw [hcore, if_pos hz]
    refine ⟨?_, abortTimer_stopTimer _⟩
    rw [voting_stopTimer]
    rfl
  · intro hp
    have hAc : (checkAutoAbort opt lobby
        (checkVoteCount false { s with voting := s.voting.RemoveVoter p })).abortCalls
        = s.abortCalls + 1 := by
      rw [abortCalls_checkAutoAbort, checkVoteCount_abortCalls]
      simp [show ({ s with voting := s.voting.RemoveVoter p } : AborterState).voting.passed
          = true from hp]
    rw [hcore]
    split
    · rw [abortCalls_stopTimer]
      exact hAc
    · exact hAc
  · intro hp h0 hd hle hne
    have hcvc : checkVoteCount false { s with voting := s.voting.RemoveVoter p }
        = { s with voting := s.voting.RemoveVoter p } :=
      checkVoteCount_not_passed _ hp
    rw [hcore, if_neg (fun hz => hne (List.length_eq_zero.mp hz)), hcvc]
    unfold checkAutoAbort
    rw [if_pos (show ({ s with voting := s.voting.RemoveVoter p } : AborterState).abortTimer
          = none from h0),
        if_pos hle]
    unfold startTimer
    rw [if_neg hd]
    show some (stopTimer { s with voting := s.voting.RemoveVoter p }).nextId = some s.nextId
    rw [nextId_stopTimer]

/-- A pre-leave state where player 5's departure makes the quorum pass
retroactively: voters 5..8, votes from 6 and 7, rate 1/2, minimum 1. -/
def preLeaveVoteState : AborterState :=
  { abortTimer := none, liveTimers := [], nextId := 3,
    voting := { vote_rate := 1/2, vote_min := 1, voters := [5, 6, 7, 8],
                votes := [6, 7] },
    abortCalls := 0, msgCount := 0, firedTimers := [] }

/-- A pre-leave state with no votes and an idle watchdog. -/
def preLeaveArmState : AborterState :=
  { abortTimer := none, liveTimers := [], nextId := 7,
    voting := { vote_rate := 1/2, vote_min := 2, voters := [1, 2, 3, 4],
                votes := [] },
    abortCalls := 0, msgCount := 0, firedTimers := [] }

/-- A lobby after player 1 left: three in game, two finished. -/
def leaveLobby : LobbySnapshot :=
  { isMatching := true, players := [2, 3, 4], playersInGame := [2, 3, 4],
    playersFinished := [2, 3], host := some 2 }

/-- Witness for C6: the retroactive quorum aborts once; the retroactively
met completion threshold arms handle 7; the leaver's vote is gone. -/
theorem C6_player_left_witness :
    (onPlayerLeft sampleOpt hostLobby 5 preLeaveVoteState).abortCalls = 1
    ∧ (onPlayerLeft sampleOpt leaveLobby 1 preLeaveArmState).abortTimer = some 7
    ∧ 5 ∉ (onPlayerLeft sampleOpt hostLobby 5 preLeaveVoteState).voting.votes := by
  refine ⟨?_, ?_, ?_⟩
  · refine (C6_player_left sampleOpt hostLobby 5 preLeaveVoteState rfl).2.2.1 ?_
    have hrv : preLeaveVoteState.voting.RemoveVoter 5
        = { vote_rate := 1/2, vote_min := 1, voters := [6, 7, 8],
            votes := [6, 7] } := rfl
    rw [hrv]
    norm_num [VoteCounter.passed, VoteCounter.count, VoteCounter.threshold,
      Int.ceil_le, max_le_iff]
  · refine (C6_player_left sampleOpt leaveLobby 1 preLeaveArmState rfl).2.2.2
      ?_ rfl (by decide) ?_ (by decide)
    · have hrv : preLeaveArmState.voting.RemoveVoter 1
          = { vote_rate := 1/2, vote_min := 2, voters := [2, 3, 4],
              votes := [] } := rfl
      rw [hrv]
      norm_num [VoteCounter.passed, VoteCounter.count]
    · rw [autoAbortRequired]
      norm_num [sampleOpt, leaveLobby, Int.ceil_le]
  · exact (C6_player_left sampleOpt hostLobby 5 preLeaveVoteState rfl).1.1

/-! ### Timer staleness machinery for the watchdog guarantees -/

/-- Handle `j` is stale in `s`: no longer scheduled, and older than every
handle `s` will ever allocate. -/
def StaleP (j : ℕ) (s : AborterState) : Prop :=
  j ∉ liveIds s ∧ j < s.nextId

theorem liveIds_stopTimer_sub (s : AborterState) :
    liveIds (stopTimer s) ⊆ liveIds s := by
  unfold stopTimer
  cases s.abortTimer
  · exact fun a h => h
  · exact List.map_subset _ (List.filter_sublist _).subset

theorem stale_stopTimer (j : ℕ) (s : AborterState) (h : StaleP j s) :
    StaleP j (stopTimer s) :=
  ⟨fun hc => h.1 (liveIds_stopTimer_sub s hc),
    by rw [nextId_stopTimer]; exact h.2⟩

theorem fired_stopTimer (s : AborterState) :
    (stopTimer s).firedTimers = s.firedTimers := by
  unfold stopTimer
  cases s.abortTimer <;> rfl

theorem stale_startTimer (j : ℕ) (opt : MatchAborterOption) (s : AborterState)
    (h : StaleP j s) : StaleP j (startTimer opt s) := by
  unfold startTimer
  split
  · exact h
  · dsimp only
    constructor
    · intro hc
      simp only [liveIds, List.map_append, List.mem_append] at hc
      rcases hc with hc | hc
      · exact (stale_stopTimer j s h).1 hc
      · simp only [List.map_cons, List.map_nil, List.mem_singleton] at hc
        rw [nextId_stopTimer] at hc
        exact absurd hc (Nat.ne_of_lt h.2)
    · show j < (stopTimer s).nextId + 1
      rw [nextId_stopTimer]
      exact Nat.lt_succ_of_lt h.2

theorem fired_startTimer (opt : MatchAborterOption) (s : AborterState) :
    (startTimer opt s).firedTimers = s.firedTimers := by
  unfold startTimer
  split
  · rfl
  · exact fired_stopTimer s

theorem stale_doAbort (j : ℕ) (s : AborterState) (h : StaleP j s) :
    StaleP j (doAbort s) :=
  stale_stopTimer j s h

theorem fired_doAbort (s : AborterState) :
    (doAbort s).firedTimers = s.firedTimers :=
  fired_stopTimer s

theorem stale_checkAutoAbort (j : ℕ) (opt : MatchAborterOption)
    (lobby : LobbySnapshot) (s : AborterState) (h : StaleP j s) :
    StaleP j (checkAutoAbort opt lobby s) := by
  unfold checkAutoAbort
  split
  · split
    · exact stale_startTimer j opt s h
    · exact h
  · exact h

theorem fired_checkAutoAbort (opt : MatchAborterOption) (lobby : LobbySnapshot)
    (s : AborterState) :
    (checkAutoAbort opt lobby s).firedTimers = s.firedTimers := by
  unfold checkAutoAbort
  split
  · split
    · exact fired_startTimer opt s
    · rfl
  · rfl

theorem stale_checkVoteCount (j : ℕ) (b : Bool) (s : AborterState)
    (h : StaleP j s) : StaleP j (checkVoteCount b s) := by
  unfold checkVoteCount
  split <;> (dsimp only; split)
  · exact stale_doAbort j _ h
  · exact h
  · exact stale_doAbort j _ h
  · exact h

theorem fired_checkVoteCount (b : Bool) (s : AborterState) :
    (checkVoteCount b s).firedTimers = s.firedTimers := by
  unfold checkVoteCount
  split <;> (dsimp only; split)
  · rw [fired_doAbort]
  · rfl
  · rw [fired_doAbort]
  · rfl

theorem stale_vote (j : ℕ) (p : PlayerId) (s : AborterState) (h : StaleP j s) :
    StaleP j (vote p s) := by
  unfold vote
  split
  · exact h
  · dsimp only
    split
    · exact stale_checkVoteCount j true _ h
    · exact h

theorem fired_vote (p : PlayerId) (s : AborterState) :
    (vote p s).firedTimers = s.firedTimers := by
  unfold vote
  split
  · rfl
  · dsimp only
    split
    · rw [fired_checkVoteCount]
    · rfl

theorem stale_onPlayerLeft (j : ℕ) (opt : MatchAborterOption)
    (lobby : LobbySnapshot) (p : PlayerId) (s : AborterState) (h : StaleP j s) :
    StaleP j (onPlayerLeft opt lobby p s) := by
  unfold onPlayerLeft
  split
  · exact h
  · dsimp only
    split
    · exact stale_stopTimer j _
        (stale_checkAutoAbort j opt lobby _ (stale_checkVoteCount j false _ h))
    · exact stale_checkAutoAbort j opt lobby _ (stale_checkVoteCount j false _ h)

theorem fired_onPlayerLeft (opt : MatchAborterOption) (lobby : LobbySnapshot)
    (p : PlayerId) (s : AborterState) :
    (onPlayerLeft opt lobby p s).firedTimers = s.firedTimers := by
  unfold onPlayerLeft
  split
  · rfl
  · dsimp only
    split
    · rw [fired_stopTimer]
      show (checkAutoAbort opt lobby
          (checkVoteCount false { s with voting := s.voting.RemoveVoter p })).firedTimers
        = s.firedTimers
      rw [fired_checkAutoAbort, fired_checkVoteCount]
    · rw [fired_checkAutoAbort, fired_checkVoteCount]

theorem stale_onMatchStarted (j : ℕ) (lobby : LobbySnapshot) (s : AborterState)
    (h : StaleP j s) : StaleP j (onMatchStarted lobby s) := h

theorem fired_onMatchStarted (lobby : LobbySnapshot) (s : AborterState) :
    (onMatchStarted lobby s).firedTimers = s.firedTimers := rfl

theorem stale_onCustomCommand (j : ℕ) (opt : MatchAborterOption)
    (lobby : LobbySnapshot) (p : PlayerId) (auth : ℕ) (c pr : String)
    (s : AborterState) (h : StaleP j s) :
    StaleP j (onCustomCommand opt lobby p auth c pr s) := by
  unfold onCustomCommand
  split
  · exact h
  · split
    · split
      · exact stale_doAbort j s h
      · exact stale_vote j p s h
    · split
      · split
        · exact stale_doAbort j s h
        · exact h
      · exact h

theorem fired_onCustomCommand (opt : MatchAborterOption) (lobby : LobbySnapshot)
    (p : PlayerId) (auth : ℕ) (c pr : String) (s : AborterState) :
    (onCustomCommand opt lobby p auth c pr s).firedTimers = s.firedTimers := by
  unfold onCustomCommand
  split
  · rfl
  · split
    · split
      · exact fired_doAbort s
      · exact fired_vote p s
    · split
      · split
        · exact fired_doAbort s
        · rfl
      · rfl

theorem stale_fireTimer (j i : ℕ) (s : AborterState) (h : StaleP j s) :
    StaleP j (fireTimer i s)
    ∧ (fireTimer i s).firedTimers.count j = s.firedTimers.count j := by
  unfold fireTimer
  split
  · rename_i hi
    have hs1 : StaleP j
        { s with liveTimers := s.liveTimers.filter (fun t => t.1 != i) } :=
      ⟨fun hc => h.1 (List.map_subset _ (List.filter_sublist _).subset hc), h.2⟩
    have hij : ¬(j = i) := fun he => h.1 (by rw [he]; exact hi)
    dsimp only
    split
    · refine ⟨stale_doAbort j _ hs1, ?_⟩
      show ((doAbort { s with
          liveTimers := s.liveTimers.filter (fun t => t.1 != i) }).firedTimers
            ++ [i]).count j
        = s.firedTimers.count j
      rw [List.count_append]
      have h0 : ([i] : List ℕ).count j = 0 := by
        rw [List.count_eq_zero]
        intro hmem
        exact hij (List.mem_singleton.mp hmem)
      rw [h0, Nat.add_zero, fired_doAbort]
    · exact ⟨hs1, rfl⟩
  · exact ⟨h, rfl⟩

theorem stale_aborterStep (opt : MatchAborterOption) (j : ℕ) (e : AborterEvent)
    (s : AborterState) (h : StaleP j s) :
    StaleP j (aborterStep opt s e)
    ∧ (aborterStep opt s e).firedTimers.count j = s.firedTimers.count j := by
  cases e with
  | playerLeft lobby p =>
    refine ⟨stale_onPlayerLeft j opt lobby p s h, ?_⟩
    show (onPlayerLeft opt lobby p s).firedTimers.count j = s.firedTimers.count j
    rw [fired_onPlayerLeft]
  | matchStarted lobby =>
    exact ⟨stale_onMatchStarted j lobby s h, rfl⟩
  | playerFinished lobby =>
    refine ⟨stale_checkAutoAbort j opt lobby s h, ?_⟩
    show (checkAutoAbort opt lobby s).firedTimers.count j = s.firedTimers.count j
    rw [fired_checkAutoAbort]
  | matchFinished =>
    refine ⟨stale_stopTimer j s h, ?_⟩
    show (stopTimer s).firedTimers.count j = s.firedTimers.count j
    rw [fired_stopTimer]
  | customCommand lobby p auth c pr =>
    refine ⟨stale_onCustomCommand j opt lobby p auth c pr s h, ?_⟩
    show (onCustomCommand opt lobby p auth c pr s).firedTimers.count j
      = s.firedTimers.count j
    rw [fired_onCustomCommand]
  | timerFire i =>
    exact stale_fireTimer j i s h

theorem stale_aborterRun (opt : MatchAborterOption) (j : ℕ)
    (es : List AborterEvent) :
    ∀ s : AborterState, StaleP j s →
      StaleP j (aborterRun opt s es)
      ∧ (aborterRun opt s es).firedTimers.count j = s.firedTimers.count j := by
  induction es with
  | nil => exact fun s h => ⟨h, rfl⟩
  | cons e t ih =>
    intro s h
    have hstep := stale_aborterStep opt j e s h
    have hrest := ih (aborterStep opt s e) hstep.1
    refine ⟨hrest.1, ?_⟩
    show (aborterRun opt (aborterStep opt s e) t).firedTimers.count j
      = s.firedTimers.count j
    rw [hrest.2, hstep.2]

/-- The state right after the first arming: handle 0 scheduled for 5ms. -/
def armedState : AborterState := startTimer sampleOpt (initAborter sampleOpt)

/-- C2: watchdog guarantees under the event-loop timer model: (a) once
`stopTimer` (disarm) has returned, the disarmed arm's callback never again
executes the abort body, whatever events and timer expiries follow; (b)
re-arming replaces the timer — the fresh handle with the new delay is the
one scheduled, and the old arm can likewise never fire; (c) the expiry of a
no-longer-scheduled handle (a stale fire) is dropped as a pure no-op, not
an error. -/
theorem C2_watchdog_no_stale_fire (opt : MatchAborterOption) (s : AborterState)
    (j : ℕ) (es : List AborterEvent) (hj : s.abortTimer = some j)
    (hlt : j < s.nextId) :
    ((aborterRun opt (stopTimer s) es).firedTimers.count j
        = s.firedTimers.count j)
    ∧ (opt.auto_abort_delay_ms ≠ 0 →
        (startTimer opt s).abortTimer = some s.nextId
        ∧ (s.nextId, opt.auto_abort_delay_ms) ∈ (startTimer opt s).liveTimers
        ∧ (aborterRun opt (startTimer opt s) es).firedTimers.count j
            = s.firedTimers.count j)
    ∧ (∀ i, i ∉ liveIds s → fireTimer i s = s) := by
  have hstop : StaleP j (stopTimer s) := by
    constructor
    · intro hc
      unfold stopTimer at hc
      rw [hj] at hc
      simp only [liveIds, List.mem_map, List.mem_filter] at hc
      obtain ⟨t, ⟨ht, hbne⟩, hfst⟩ := hc
      rw [hfst] at hbne
      simp at hbne
    · rw [nextId_stopTimer]
      exact hlt
  refine ⟨?_, ?_, ?_⟩
  · rw [(stale_aborterRun opt j es (stopTimer s) hstop).2, fired_stopTimer]
  · intro hd
    have harm : startTimer opt s
        = { stopTimer s with
            abortTimer := some (stopTimer s).nextId,
            liveTimers := (stopTimer s).liveTimers
              ++ [((stopTimer s).nextId, opt.auto_abort_delay_ms)],
            nextId := (stopTimer s).nextId + 1 } := by
      unfold startTimer
      rw [if_neg hd]
    have hstale : StaleP j (startTimer opt s) := by
      constructor
      · intro hc
        rw [harm] at hc
        simp only [liveIds, List.map_append, List.mem_append] at hc
        rcases hc with hc | hc
        · exact hstop.1 hc
        · simp only [List.map_cons, List.map_nil, List.mem_singleton] at hc
          rw [nextId_stopTimer] at hc
          exact absurd hc (Nat.ne_of_lt hlt)
      · rw [harm]
        show j < (stopTimer s).nextId + 1
        rw [nextId_stopTimer]
        exact Nat.lt_succ_of_lt hlt
    refine ⟨?_, ?_, ?_⟩
    · rw [harm]
      show some (stopTimer s).nextId = some s.nextId
      rw [nextId_stopTimer]
    · rw [harm]
      show (s.nextId, opt.auto_abort_delay_ms)
          ∈ (stopTimer s).liveTimers
            ++ [((stopTimer s).nextId, opt.auto_abort_delay_ms)]
      rw [nextId_stopTimer]
      exact List.mem_append_right _ (List.mem_singleton.mpr rfl)
    · rw [(stale_aborterRun opt j es (startTimer opt s) hstale).2,
          fired_startTimer]
  · intro i hi
    unfold fireTimer
    rw [if_neg hi]

/-- Witness for C2: arm handle 0, disarm, then its expiry never aborts;
re-arming yields fresh handle 1; a never-scheduled expiry is a no-op. -/
theorem C2_watchdog_no_stale_fire_witness :
    ((aborterRun sampleOpt (stopTimer armedState)
        [AborterEvent.timerFire 0]).firedTimers.count 0
      = armedState.firedTimers.count 0)
    ∧ (startTimer sampleOpt armedState).abortTimer = some 1
    ∧ fireTimer 5 armedState = armedState := by
  have h := C2_watchdog_no_stale_fire sampleOpt armedState 0
    [AborterEvent.timerFire 0] rfl (by decide)
  exact ⟨h.1, (h.2.1 (by decide)).1, h.2.2 5 (by decide)⟩
